import Mathlib

/-!
Shallow embedding of `src/ads7830.c` (tjmonk/ads7830), the ADS7830 ADC
server.  Pure computations (command-byte composition, voltage scaling)
become Lean functions; the I2C bus, the variable server and the signal
payloads become explicit environment parameters, and the side effects of
each operation (bus transactions, publishes, print-session traffic) are
returned as explicit traces.  Uninitialized C locals (`sig` in
`HandleSignal`, `hVar` in `ParseChannel`, `data` in `SampleChannel`) are
modelled as extra input parameters carrying the arbitrary garbage value.
-/

/-- POSIX success code `EOK` (0), as used by the source. -/
def EOK : Nat := 0

/-- POSIX error code `EINVAL` (invalid argument). -/
def EINVAL : Nat := 22

/-- POSIX error code `ENOENT` (no such entity / not found). -/
def ENOENT : Nat := 2

/-- POSIX error code `ENOTSUP` (operation not supported). -/
def ENOTSUP : Nat := 95

/-- Invalid variable handle `VAR_INVALID` from the varserver API. -/
def VAR_INVALID : Int := 0

/-- Base of the POSIX real-time signal range (Linux value). -/
def SIGRTMIN : Int := 34

/-- Timer notification signal: the source defines `TIMER_NOTIFICATION` as
`SIGRTMIN+5`. -/
def TIMER_NOTIFICATION : Int := SIGRTMIN + 5

/-- Calc-request signal `SIG_VAR_CALC` from the external varserver header:
a real-time signal distinct from the timer and print signals. -/
def SIG_VAR_CALC : Int := SIGRTMIN + 2

/-- Print-request signal `SIG_VAR_PRINT` from the external varserver header:
a real-time signal distinct from the timer and calc signals. -/
def SIG_VAR_PRINT : Int := SIGRTMIN + 3

/-- Number of channels on the ADS7830 chip (`ADS7830_NUM_CHANNELS`). -/
def ADS7830_NUM_CHANNELS : Nat := 8

/-- The `_ain` structure: one analog input channel descriptor. -/
structure AIN where
  channel : Int := 0
  name : String := ""
  hVar : Int := 0
  interval : Int := 0
deriving DecidableEq

/-- The `_ads7830` controller state.  `channels` is the fixed 8-slot table
(indices above 7 are never consulted); `fd` is the long-lived I2C
descriptor opened at startup in exclusive mode (0 from `memset` in
non-exclusive mode, since the state is zero-initialized). -/
structure ADS7830 where
  running : Bool := false
  pFileName : String := ""
  device : Option String := none
  exclusive : Bool := false
  verbose : Bool := false
  output : Bool := false
  fd : Int := 0
  address : Nat := 0
  channels : Nat → AIN

/-- Single-ended bit of the ADS7830 command byte (`single_ended = 0x80`). -/
def single_ended : Nat := 0x80

/-- AD-on / reference-off bits of the command byte
(`dac_on_ref_off = 0x04`). -/
def dac_on_ref_off : Nat := 0x04

/-- The channel-select permutation table `chval` from `ReadChannel`. -/
def chval : List Nat := [0, 4, 1, 5, 2, 6, 3, 7]

/-- Command byte composed by `ReadChannel`:
`cmd = single_ended | dac_on_ref_off | (chval[channel] << 4)`. -/
def commandByte (channel : Nat) : Nat :=
  single_ended ||| dac_on_ref_off ||| ((chval.getD channel 0) <<< 4)

/-- Environment describing how the I2C system calls behave during one
transaction: the descriptor `open` returns (-1 on failure), whether the
`I2C_SLAVE` ioctl succeeds, whether the `write`/`read` system calls
succeed (the source never checks these), the byte a successful `read`
delivers, and the pending `errno` value. -/
structure BusEnv where
  openRet : Int
  ioctlOk : Bool
  writeOk : Bool
  readOk : Bool
  readByte : Nat
  errno : Nat
deriving DecidableEq

/-- One observable I2C bus operation. -/
inductive BusOp where
  | openDev (device : String)
  | ioctlSlave (fd : Int) (addr : Nat)
  | writeCmd (fd : Int) (cmd : Nat)
  | readData (fd : Int)
  | closeDev (fd : Int)
deriving DecidableEq

/-- Embedding of `ReadChannel`: returns the result code, the final value
of the caller's data byte (updated only by a successful `read` system
call), and the trace of bus operations performed.  Mirrors the source:
the `pADS7830->fd == -1` branch reuses `fd = -1` and skips the open (so
the transaction guard fails and `errno` is returned with no bus traffic);
otherwise a fresh descriptor is opened, used, and closed.  The `write`
and `read` return values are not consulted. -/
def ReadChannel (pADS7830 : ADS7830) (env : BusEnv) (channel : Int) (dataIn : Nat) :
    Nat × Nat × List BusOp :=
  if pADS7830.device ≠ none ∧ 0 ≤ channel ∧ channel < 8 then
    if pADS7830.fd = -1 then
      (env.errno, dataIn, [])
    else if env.openRet = -1 then
      (env.errno, dataIn, [BusOp.openDev (pADS7830.device.getD "")])
    else if env.ioctlOk then
      (EOK, if env.readOk then env.readByte else dataIn,
       [BusOp.openDev (pADS7830.device.getD ""),
        BusOp.ioctlSlave env.openRet pADS7830.address,
        BusOp.writeCmd env.openRet (commandByte channel.toNat),
        BusOp.readData env.openRet, BusOp.closeDev env.openRet])
    else
      (env.errno, dataIn,
       [BusOp.openDev (pADS7830.device.getD ""),
        BusOp.ioctlSlave env.openRet pADS7830.address,
        BusOp.closeDev env.openRet])
  else (EINVAL, dataIn, [])

/-- A concrete controller state with no channels configured. -/
def baseState : ADS7830 :=
  { device := some "/dev/i2c-1", fd := 0, address := 0x4b,
    channels := fun _ => {} }

/-- A concrete controller state in exclusive mode holding bus descriptor 3. -/
def exclusiveState : ADS7830 :=
  { device := some "/dev/i2c-1", exclusive := true, fd := 3, address := 0x4b,
    channels := fun _ => {} }

/-- A bus environment in which every system call succeeds and `read`
delivers the byte 42. -/
def busOkEnv : BusEnv :=
  { openRet := 4, ioctlOk := true, writeOk := true, readOk := true,
    readByte := 42, errno := 5 }

/-- A bus environment in which `open` and the ioctl succeed but the
`write` and `read` system calls fail with errno 5 (`EIO`). -/
def readFailEnv : BusEnv :=
  { openRet := 4, ioctlOk := true, writeOk := false, readOk := false,
    readByte := 42, errno := 5 }

/-- Variable type tag: the source publishes with `VARTYPE_UINT16`. -/
inductive VarType where
  | uint16
deriving DecidableEq

/-- The `VarObject` populated by `SampleChannel` before `VAR_Set`. -/
structure VarObject where
  type : VarType
  len : Nat
  val : Nat
deriving DecidableEq

/-- Raw-to-voltage scaling used by `PrintStatus`:
`((float)data / 255.0) * 3.3`, modelled in exact rational arithmetic. -/
def voltage (data : Nat) : ℚ :=
  (data : ℚ) / 255 * (33 / 10)

/-- One line of status output produced by `PrintStatus`. -/
inductive StatusLine where
  | headerTitle
  | headerConfig (file : String)
  | headerDevice (dev : Option String)
  | headerAddress (addr : Nat)
  | headerExclusive (b : Bool)
  | headerVerbose (b : Bool)
  | headerChannels
  | chanPeriodic (ch : Nat) (name : String) (interval : Int) (data : Nat) (volts : ℚ)
  | chanOnDemand (ch : Nat) (name : String) (data : Nat) (volts : ℚ)
deriving DecidableEq

/-- Whether a status line is one of the 8 per-channel lines. -/
def isChannelLine : StatusLine → Bool
  | StatusLine.chanPeriodic _ _ _ _ _ => true
  | StatusLine.chanOnDemand _ _ _ _ => true
  | _ => false

/-- The raw data byte shown on a per-channel status line, if any. -/
def lineData : StatusLine → Option Nat
  | StatusLine.chanPeriodic _ _ _ d _ => some d
  | StatusLine.chanOnDemand _ _ d _ => some d
  | _ => none

/-- One iteration of the `PrintStatus` channel loop: set `data = 0`, call
`ReadChannel` discarding its result code, and format the line according
to whether the channel's interval is nonzero.  Returns the line and the
bus operations the re-read performed. -/
def channelLine (pADS7830 : ADS7830) (envs : Nat → BusEnv) (ch : Nat) :
    StatusLine × List BusOp :=
  let res := ReadChannel pADS7830 (envs ch) (ch : Int) 0
  let data := res.2.1
  let a := pADS7830.channels ch
  (if a.interval ≠ 0 then
     StatusLine.chanPeriodic ch a.name a.interval data (voltage data)
   else
     StatusLine.chanOnDemand ch a.name data (voltage data),
   res.2.2)

/-- The 8 per-channel entries rendered by the `PrintStatus` loop. -/
def statusChannelLines (pADS7830 : ADS7830) (envs : Nat → BusEnv) :
    List (StatusLine × List BusOp) :=
  (List.range ADS7830_NUM_CHANNELS).map (channelLine pADS7830 envs)

/-- Embedding of `PrintStatus`: given per-channel bus environments and
the output descriptor, returns the result code, the rendered lines and
the bus traffic.  `result` is initialized to `EINVAL` and never updated
by the source, so `EINVAL` is returned on every path. -/
def PrintStatus (pADS7830 : ADS7830) (envs : Nat → BusEnv) (fd : Int) :
    Nat × List StatusLine × List BusOp :=
  if fd ≠ -1 then
    let body := statusChannelLines pADS7830 envs
    (EINVAL,
     [StatusLine.headerTitle, StatusLine.headerConfig pADS7830.pFileName,
      StatusLine.headerDevice pADS7830.device,
      StatusLine.headerAddress pADS7830.address,
      StatusLine.headerExclusive pADS7830.exclusive,
      StatusLine.headerVerbose pADS7830.verbose,
      StatusLine.headerChannels] ++ body.map Prod.fst,
     (body.map Prod.snd).flatten)
  else (EINVAL, [], [])

/-- Embedding of `FindChannel`: the first channel slot whose variable
handle equals `hVar`, or -1 when `hVar` is invalid or unmatched. -/
def FindChannel (pADS7830 : ADS7830) (hVar : Int) : Int :=
  if hVar = VAR_INVALID then -1
  else
    match (List.range ADS7830_NUM_CHANNELS).find?
        (fun i => (pADS7830.channels i).hVar = hVar) with
    | some i => (i : Int)
    | none => -1

/-- One observable effect of dispatch: a bus operation, a publish to the
variable server (`VAR_Set`), or print-session traffic. -/
inductive Effect where
  | bus (op : BusOp)
  | publish (hVar : Int) (obj : VarObject)
  | openPrint (id : Int)
  | render (line : StatusLine)
  | closePrint (id : Int) (fd : Int)
deriving DecidableEq

/-- Embedding of `SampleChannel`: `setResult` is the code `VAR_Set`
returns; `dataUninit` is the garbage value of the uninitialized local
`data`.  Publishes `VARTYPE_UINT16` of length 2 carrying the byte
`ReadChannel` produced, exactly when the read returned `EOK`. -/
def SampleChannel (pADS7830 : ADS7830) (env : BusEnv) (setResult dataUninit : Nat)
    (channel : Int) : Nat × List Effect :=
  if 0 ≤ channel ∧ channel < 8 then
    let hVar := (pADS7830.channels channel.toNat).hVar
    if hVar ≠ VAR_INVALID then
      let res := ReadChannel pADS7830 env channel dataUninit
      if res.1 = EOK then
        (setResult,
         res.2.2.map Effect.bus
           ++ [Effect.publish hVar { type := VarType.uint16, len := 2, val := res.2.1 }])
      else (res.1, res.2.2.map Effect.bus)
    else (EINVAL, [])
  else (EINVAL, [])

/-- Embedding of `HandleSignal`.  The source declares a local `int sig`
and never assigns it, yet routes every branch on `sig`; the parameter
`signum` (the received signal) is never consulted.  `sig` here carries
that uninitialized value explicitly.  `printFd` is the descriptor
`VAR_OpenPrintSession` yields. -/
def HandleSignal (pADS7830 : ADS7830) (busEnv : BusEnv) (envs : Nat → BusEnv)
    (setResult dataUninit : Nat) (printFd : Int) (sig signum id : Int) :
    Nat × List Effect :=
  if sig = SIG_VAR_CALC then
    let hVar := id
    let ch := FindChannel pADS7830 hVar
    if 0 ≤ ch ∧ ch < 8 then
      SampleChannel pADS7830 busEnv setResult dataUninit ch
    else (ENOENT, [])
  else if sig = SIG_VAR_PRINT then
    let res := PrintStatus pADS7830 envs printFd
    (EOK,
     [Effect.openPrint id] ++ res.2.2.map Effect.bus
       ++ res.2.1.map Effect.render ++ [Effect.closePrint id printFd])
  else if sig = TIMER_NOTIFICATION then
    let ch := id
    if 0 ≤ ch ∧ ch < 8 then
      SampleChannel pADS7830 busEnv setResult dataUninit ch
    else (ENOENT, [])
  else (ENOTSUP, [])

/-- A parsed channel-definition node as `ParseChannel` consumes it:
`JSON_GetStr` yields `none` for a missing attribute, and the numeric
attributes carry their `atoi` values. -/
structure ChannelDef where
  channel : Option Int
  interval : Option Int
  var : Option String
deriving DecidableEq

/-- Registry-population effect: a `CreateTimer` request to the Timer
Manager, or a `VAR_Notify(..., NOTIFY_CALC)` registration. -/
inductive RegEffect where
  | createTimer (channel : Int) (timeoutms : Int)
  | notifyCalc (hVar : Int)
deriving DecidableEq

/-- Update one slot of the channel table. -/
def updateChannel (st : ADS7830) (i : Nat) (f : AIN → AIN) : ADS7830 :=
  { st with channels := fun j => if j = i then f (st.channels j) else st.channels j }

/-- Embedding of `ParseChannel`.  `resolve` models `VAR_FindByName`;
`hVarUninit` is the garbage value of the local `hVar` when no "var"
attribute is present (the source then passes it to `VAR_Notify`).
Returns the updated state, the registration effects, and the returned
code (the source returns `EOK` unconditionally). -/
def ParseChannel (resolve : String → Int) (hVarUninit : Int) (st : ADS7830)
    (node : ChannelDef) : ADS7830 × List RegEffect × Nat :=
  let channel := node.channel.getD (-1)
  if 0 ≤ channel ∧ channel < 8 then
    let c := channel.toNat
    let stepA : ADS7830 × Int × List RegEffect :=
      match node.interval with
      | some interval =>
          (updateChannel st c (fun a => { a with interval := interval }),
           interval, [RegEffect.createTimer channel interval])
      | none =>
          (updateChannel st c (fun a => { a with interval := 0 }), 0, [])
    let st1 := stepA.1
    let interval := stepA.2.1
    let effs1 := stepA.2.2
    let stepB : ADS7830 × Int :=
      match node.var with
      | some name =>
          (updateChannel st1 c (fun a => { a with name := name, hVar := resolve name }),
           resolve name)
      | none =>
          (updateChannel st1 c (fun a => { a with hVar := VAR_INVALID }), hVarUninit)
    let st2 := stepB.1
    let hVar := stepB.2
    let effs2 := if interval = 0 then effs1 ++ [RegEffect.notifyCalc hVar] else effs1
    (st2, effs2, EOK)
  else (st, [], EOK)

/-- A concrete controller state with channel 3 bound to variable
`/HW/ADS7830/A3` (handle 10) at interval 1000, all other slots empty. -/
def boundState : ADS7830 :=
  { device := some "/dev/i2c-1", fd := 0, address := 0x4b,
    channels := fun i =>
      if i = 3 then
        { channel := 3, name := "/HW/ADS7830/A3", hVar := 10, interval := 1000 }
      else {} }

/-- The channel-3 definition node of end-to-end scenario 1, with the
interval attribute present but zero. -/
def zeroIntervalNode : ChannelDef :=
  { channel := some 3, interval := some 0, var := some "/HW/ADS7830/A3" }

/-- The channel-3 definition node of end-to-end scenario 1: interval
attribute present and equal to 1000. -/
def periodicNode : ChannelDef :=
  { channel := some 3, interval := some 1000, var := some "/HW/ADS7830/A3" }

/-- Helper: when `ReadChannel` does not return `EOK`, the caller's data
byte is left unchanged (only a completed transaction writes it). -/
lemma ReadChannel_fail_data (st : ADS7830) (env : BusEnv) (channel : Int) (dataIn : Nat)
    (h : (ReadChannel st env channel dataIn).1 ≠ EOK) :
    (ReadChannel st env channel dataIn).2.1 = dataIn := by
  unfold ReadChannel at h ⊢
  split_ifs at h ⊢ <;> first | rfl | exact absurd rfl h

/-- Helper: each entry produced by the `PrintStatus` channel loop is a
per-channel line. -/
lemma isChannelLine_channelLine (st : ADS7830) (envs : Nat → BusEnv) (ch : Nat) :
    isChannelLine (channelLine st envs ch).1 = true := by
  unfold channelLine
  by_cases h : (st.channels ch).interval = 0 <;> simp [h, isChannelLine]

/-- Helper: the data byte shown on the line for channel `ch` is the byte
the render-time `ReadChannel` call produced (from an initial 0). -/
lemma lineData_channelLine (st : ADS7830) (envs : Nat → BusEnv) (ch : Nat) :
    lineData (channelLine st envs ch).1
      = some ((ReadChannel st (envs ch) (ch : Int) 0).2.1) := by
  unfold channelLine
  by_cases h : (st.channels ch).interval = 0 <;> simp [h, lineData]

/-- Helper: an unmatched variable handle resolves to channel -1. -/
lemma FindChannel_eq_neg_one (st : ADS7830) (hv : Int)
    (h : ∀ i, i < 8 → (st.channels i).hVar ≠ hv) :
    FindChannel st hv = -1 := by
  unfold FindChannel
  split_ifs with h0
  · rfl
  · have hnone : (List.range ADS7830_NUM_CHANNELS).find?
        (fun i => (st.channels i).hVar = hv) = none := by
      rw [List.find?_eq_none]
      intro i hi
      simp only [List.mem_range, ADS7830_NUM_CHANNELS] at hi
      simp [h i hi]
    rw [hnone]

/-- C10: the status-rendering operation returns `EINVAL` on every call,
valid output descriptor or not, and never the success code `EOK`. -/
theorem claim_C10_print_result :
    ∀ (st : ADS7830) (envs : Nat → BusEnv) (fd : Int),
      (PrintStatus st envs fd).1 = EINVAL ∧ EINVAL ≠ EOK := by
  intro st envs fd
  refine ⟨?_, by decide⟩
  unfold PrintStatus
  split <;> rfl

/-- C8: the renderer's raw-to-voltage scaling maps byte 0 to 0 V, byte
255 to 3.3 V, and is strictly increasing. -/
theorem claim_C8_voltage (a b : Nat) (h : a < b) :
    voltage 0 = 0 ∧ voltage 255 = 33 / 10 ∧ voltage a < voltage b := by
  refine ⟨by norm_num [voltage], by norm_num [voltage], ?_⟩
  have hq : (a : ℚ) < (b : ℚ) := by exact_mod_cast h
  have ea : voltage a = (a : ℚ) * (33 / 2550) := by unfold voltage; ring
  have eb : voltage b = (b : ℚ) * (33 / 2550) := by unfold voltage; ring
  rw [ea, eb]
  exact mul_lt_mul_of_pos_right hq (by norm_num)

/-- C8 witness: the endpoints instantiate the scaling theorem. -/
theorem claim_C8_witness :
    voltage 0 = 0 ∧ voltage 255 = 33 / 10 ∧ voltage 0 < voltage 255 :=
  claim_C8_voltage 0 255 (by norm_num)

/-- C2 counterexample: the composed command byte for channel 0 is `0x84`,
whose bit 3 is clear — the claim that bits 2-3 are both set is false. -/
theorem claim_C2_counterexample :
    commandByte 0 = 0x84 ∧ Nat.testBit (commandByte 0) 3 = false := by decide

/-- C2 amended: for every logical channel 0..7 the command byte equals
single-ended-bit OR AD-on/reference-off-bits OR (select << 4) with the
select taken from the fixed permutation `{0,4,1,5,2,6,3,7}`; the byte
always has bit 7 and bit 2 set, while bit 3 is always clear (the
AD-on/reference-off value 0x04 sets only bit 2 of the bits-2-3 field). -/
theorem claim_C2_amended :
    ∀ c : Nat, c < 8 →
      commandByte c = single_ended ||| dac_on_ref_off ||| (chval.getD c 0 <<< 4)
      ∧ chval = [0, 4, 1, 5, 2, 6, 3, 7]
      ∧ Nat.testBit (commandByte c) 7 = true
      ∧ Nat.testBit (commandByte c) 2 = true
      ∧ Nat.testBit (commandByte c) 3 = false := by decide

/-- C2 witness: channel 3 instantiates the amended command-byte theorem. -/
theorem claim_C2_witness :
    commandByte 3 = single_ended ||| dac_on_ref_off ||| (chval.getD 3 0 <<< 4)
    ∧ chval = [0, 4, 1, 5, 2, 6, 3, 7]
    ∧ Nat.testBit (commandByte 3) 7 = true
    ∧ Nat.testBit (commandByte 3) 2 = true
    ∧ Nat.testBit (commandByte 3) 3 = false :=
  claim_C2_amended 3 (by decide)

/-- C1: the dispatcher routes on the uninitialized local `sig`, never on
the received signal `signum`.  With channel 3 bound at interval 1000 and
garbage value 0 in `sig`, a timer-expiry notification (indeed any
notification) with payload 3 yields `ENOTSUP` and performs no bus
operation and no publish, contradicting routing-by-received-class. -/
theorem claim_C1_code_divergence :
    (∀ signum : Int,
        HandleSignal boundState busOkEnv (fun _ => busOkEnv) 0 0 1 0 signum 3
          = (ENOTSUP, []))
    ∧ (boundState.channels 3).hVar ≠ VAR_INVALID
    ∧ (boundState.channels 3).interval = 1000 :=
  ⟨fun _ => rfl, by decide, by decide⟩

/-- C3: with an exclusive long-lived connection held on descriptor 3, a
read of channel 0 opens a fresh descriptor (4), performs the whole
transaction on it and closes it — no operation ever touches the held
descriptor 3; and the branch meant to reuse the held connection is taken
only when `fd == -1`, where it performs no bus operation and fails with
`errno`. -/
theorem claim_C3_code_divergence :
    ReadChannel exclusiveState busOkEnv 0 0
      = (EOK, 42,
         [BusOp.openDev "/dev/i2c-1", BusOp.ioctlSlave 4 0x4b,
          BusOp.writeCmd 4 (commandByte 0), BusOp.readData 4, BusOp.closeDev 4])
    ∧ exclusiveState.exclusive = true
    ∧ exclusiveState.fd = 3
    ∧ (∀ op ∈ (ReadChannel exclusiveState busOkEnv 0 0).2.2,
        op ≠ BusOp.ioctlSlave 3 0x4b ∧ op ≠ BusOp.writeCmd 3 (commandByte 0)
          ∧ op ≠ BusOp.readData 3 ∧ op ≠ BusOp.closeDev 3)
    ∧ ReadChannel { exclusiveState with fd := -1 } busOkEnv 0 0 = (5, 0, []) := by
  decide

/-- C4 counterexample: with `open` and the address ioctl succeeding but
the `write` and `read` system calls failing (errno 5), `ReadChannel`
still returns `EOK` with the caller's buffer unchanged — write/read
failures do not yield the underlying error code. -/
theorem claim_C4_counterexample :
    (ReadChannel baseState readFailEnv 0 77).1 = EOK
    ∧ readFailEnv.writeOk = false
    ∧ readFailEnv.readOk = false
    ∧ (ReadChannel baseState readFailEnv 0 77).2.1 = 77
    ∧ EOK ≠ readFailEnv.errno := by decide

/-- C4 amended: an open failure or a target-address (ioctl) failure makes
`ReadChannel` return the pending `errno`; once the address is set the
function returns `EOK` unconditionally — the `write` and `read` return
values are never checked — and the returned byte is the byte `read`
delivered when it succeeded, the caller's buffer value otherwise.  The
branch taken when no descriptor is recorded (`fd == -1`) also fails with
`errno`, performing no bus operation. -/
theorem claim_C4_amended (st : ADS7830) (env : BusEnv) (channel : Int) (dataIn : Nat)
    (dev : String) (hdev : st.device = some dev) (hch : 0 ≤ channel ∧ channel < 8) :
    (st.fd = -1 → ReadChannel st env channel dataIn = (env.errno, dataIn, []))
    ∧ (st.fd ≠ -1 → env.openRet = -1 →
        ReadChannel st env channel dataIn = (env.errno, dataIn, [BusOp.openDev dev]))
    ∧ (st.fd ≠ -1 → env.openRet ≠ -1 → env.ioctlOk = false →
        (ReadChannel st env channel dataIn).1 = env.errno)
    ∧ (st.fd ≠ -1 → env.openRet ≠ -1 → env.ioctlOk = true →
        (ReadChannel st env channel dataIn).1 = EOK
        ∧ (ReadChannel st env channel dataIn).2.1
            = if env.readOk then env.readByte else dataIn) := by
  have hcond : st.device ≠ none ∧ 0 ≤ channel ∧ channel < 8 := by
    refine ⟨?_, hch⟩
    simp [hdev]
  refine ⟨fun hfd => ?_, fun hfd hopen => ?_, fun hfd hopen hio => ?_,
          fun hfd hopen hio => ?_⟩ <;>
    simp [ReadChannel, hcond, hdev, *]

/-- C4 witness: a fully successful transaction instantiates the amended
theorem: result `EOK` and the byte read (42) is returned. -/
theorem claim_C4_witness :
    (ReadChannel baseState busOkEnv 0 0).1 = EOK
    ∧ (ReadChannel baseState busOkEnv 0 0).2.1
        = if busOkEnv.readOk then busOkEnv.readByte else 0 :=
  (claim_C4_amended baseState busOkEnv 0 0 "/dev/i2c-1" rfl (by decide)).2.2.2
    (by decide) (by decide) rfl

/-- C5 counterexample: for a definition whose interval attribute is
present but zero, `ParseChannel` still requests a timer (`CreateTimer`
is called with interval 0), contradicting "a timer is requested exactly
when an interval is given and non-zero". -/
theorem claim_C5_counterexample :
    RegEffect.createTimer 3 0 ∈ (ParseChannel (fun _ => 7) 0 baseState zeroIntervalNode).2.1
    ∧ zeroIntervalNode.interval = some 0 := by decide

/-- C5 amended: for an in-range channel definition, a timer is requested
exactly when the interval attribute is present (even when it is zero);
the stored interval is the given value, or 0 when the attribute is
absent; and on-demand recalculation interest (`NOTIFY_CALC`) is
registered exactly when the effective interval is zero, for the handle
resolved from the "var" attribute (or the uninitialized local when the
attribute is absent). -/
theorem claim_C5_amended (resolve : String → Int) (hVarUninit : Int) (st : ADS7830)
    (node : ChannelDef) (ch : Int) (hch : node.channel = some ch)
    (h0 : 0 ≤ ch) (h8 : ch < 8) :
    (node.interval = none →
        (ParseChannel resolve hVarUninit st node).2.1
          = [RegEffect.notifyCalc
               (match node.var with | some n => resolve n | none => hVarUninit)]
        ∧ ((ParseChannel resolve hVarUninit st node).1.channels ch.toNat).interval = 0)
    ∧ (∀ iv : Int, node.interval = some iv → iv ≠ 0 →
        (ParseChannel resolve hVarUninit st node).2.1 = [RegEffect.createTimer ch iv]
        ∧ ((ParseChannel resolve hVarUninit st node).1.channels ch.toNat).interval = iv)
    ∧ (node.interval = some 0 →
        (ParseChannel resolve hVarUninit st node).2.1
          = [RegEffect.createTimer ch 0,
             RegEffect.notifyCalc
               (match node.var with | some n => resolve n | none => hVarUninit)]
        ∧ ((ParseChannel resolve hVarUninit st node).1.channels ch.toNat).interval = 0) := by
  have hrange : (0:Int) ≤ ch ∧ ch < 8 := ⟨h0, h8⟩
  refine ⟨fun hnone => ?_, fun iv hiv hiv0 => ?_, fun hzero => ?_⟩ <;>
    rcases hv : node.var with _ | nm <;>
      simp [ParseChannel, updateChannel, hch, hv, hrange, *]

/-- C5 witness: scenario-1 node (channel 3, interval 1000) instantiates
the amended theorem: one timer request, stored interval 1000. -/
theorem claim_C5_witness :
    (ParseChannel (fun _ => 10) 0 baseState periodicNode).2.1
      = [RegEffect.createTimer 3 1000]
    ∧ ((ParseChannel (fun _ => 10) 0 baseState periodicNode).1.channels 3).interval
        = 1000 := by
  have h := (claim_C5_amended (fun _ => 10) 0 baseState periodicNode 3 rfl
    (by decide) (by decide)).2.1 1000 rfl (by decide)
  exact ⟨h.1, h.2⟩

/-- C6 counterexample: for the out-of-range channel index 8 the Bus
Reader returns `EINVAL`, which differs from the dispatcher's
"channel not found" code `ENOENT` the claim assigns both components. -/
theorem claim_C6_counterexample :
    (ReadChannel baseState busOkEnv 8 0).1 = EINVAL ∧ EINVAL ≠ ENOENT := by decide

/-- C6 amended: for every channel index outside [0,7] the Bus Reader
returns the invalid-argument code `EINVAL` and performs no bus
operation, while the dispatcher's timer-expiry routing returns `ENOENT`
with no effect, as does its recalculation routing when the payload
handle matches no channel's bound variable. -/
theorem claim_C6_amended (st : ADS7830) (env : BusEnv) (envs : Nat → BusEnv)
    (setRes dataU : Nat) (pfd : Int) (signum ch : Int) (dataIn : Nat)
    (hch : ¬ (0 ≤ ch ∧ ch < 8)) :
    ReadChannel st env ch dataIn = (EINVAL, dataIn, [])
    ∧ HandleSignal st env envs setRes dataU pfd TIMER_NOTIFICATION signum ch
        = (ENOENT, [])
    ∧ ∀ hv : Int, (∀ i, i < 8 → (st.channels i).hVar ≠ hv) →
        HandleSignal st env envs setRes dataU pfd SIG_VAR_CALC signum hv
          = (ENOENT, []) := by
  refine ⟨?_, ?_, fun hv hunm => ?_⟩
  · have : ¬ (st.device ≠ none ∧ 0 ≤ ch ∧ ch < 8) := fun hc => hch hc.2
    simp [ReadChannel, this]
  · have h1 : TIMER_NOTIFICATION ≠ SIG_VAR_CALC := by decide
    have h2 : TIMER_NOTIFICATION ≠ SIG_VAR_PRINT := by decide
    simp [HandleSignal, h1, h2, hch]
  · have hfind := FindChannel_eq_neg_one st hv hunm
    have hneg : ¬ ((0:Int) ≤ -1 ∧ (-1:Int) < 8) := by decide
    simp [HandleSignal, hfind, hneg]

/-- C6 witness: channel index 8 as timer payload and the unmatched
handle 99 as calc payload instantiate the amended theorem. -/
theorem claim_C6_witness :
    ReadChannel baseState busOkEnv 8 0 = (EINVAL, 0, [])
    ∧ HandleSignal baseState busOkEnv (fun _ => busOkEnv) 0 0 1 TIMER_NOTIFICATION 39 8
        = (ENOENT, [])
    ∧ HandleSignal baseState busOkEnv (fun _ => busOkEnv) 0 0 1 SIG_VAR_CALC 39 99
        = (ENOENT, []) := by
  have h := claim_C6_amended baseState busOkEnv (fun _ => busOkEnv) 0 0 1 39 8 0
    (by decide)
  exact ⟨h.1, h.2.1, h.2.2 99 (by decide)⟩

/-- C7: for every controller state and per-channel bus behavior, status
rendering emits exactly the 8 per-channel lines (one per index 0-7), its
bus traffic is the concatenation of the eight render-time re-reads, and
each line shows the byte that channel's render-time read produced — 0
whenever the read did not succeed — so one channel's failure never
removes another channel's line. -/
theorem claim_C7_render (st : ADS7830) (envs : Nat → BusEnv) (fd : Int) (hfd : fd ≠ -1) :
    (PrintStatus st envs fd).2.1.filter isChannelLine
      = (List.range 8).map (fun ch => (channelLine st envs ch).1)
    ∧ ((PrintStatus st envs fd).2.1.filter isChannelLine).length = 8
    ∧ (PrintStatus st envs fd).2.2
      = ((List.range 8).map (fun ch => (channelLine st envs ch).2)).flatten
    ∧ ∀ ch : Nat, ch < 8 →
        lineData ((channelLine st envs ch).1)
          = some ((ReadChannel st (envs ch) (ch : Int) 0).2.1)
        ∧ ((ReadChannel st (envs ch) (ch : Int) 0).1 ≠ EOK →
            lineData ((channelLine st envs ch).1) = some 0) := by
  have hps : (PrintStatus st envs fd).2.1
      = [StatusLine.headerTitle, StatusLine.headerConfig st.pFileName,
         StatusLine.headerDevice st.device, StatusLine.headerAddress st.address,
         StatusLine.headerExclusive st.exclusive, StatusLine.headerVerbose st.verbose,
         StatusLine.headerChannels]
        ++ (List.range 8).map (fun ch => (channelLine st envs ch).1) := by
    simp [PrintStatus, statusChannelLines, ADS7830_NUM_CHANNELS, hfd, List.map_map,
      Function.comp_def]
  have hfilter : (PrintStatus st envs fd).2.1.filter isChannelLine
      = (List.range 8).map (fun ch => (channelLine st envs ch).1) := by
    rw [hps, List.filter_append]
    have h2 : ((List.range 8).map (fun ch => (channelLine st envs ch).1)).filter
        isChannelLine = (List.range 8).map (fun ch => (channelLine st envs ch).1) := by
      rw [List.filter_eq_self]
      intro a ha
      rcases List.mem_map.1 ha with ⟨ch, _, rfl⟩
      exact isChannelLine_channelLine st envs ch
    rw [h2]
    rfl
  refine ⟨hfilter, ?_, ?_, fun ch hch => ?_⟩
  · rw [hfilter]; simp
  · simp [PrintStatus, statusChannelLines, ADS7830_NUM_CHANNELS, hfd, List.map_map,
      Function.comp_def]
  · refine ⟨lineData_channelLine st envs ch, fun hne => ?_⟩
    rw [lineData_channelLine st envs ch, ReadChannel_fail_data st (envs ch) ch 0 hne]

/-- C7 witness: a concrete render over an all-success bus yields the 8
channel lines, and channel 3's line shows the byte read (42). -/
theorem claim_C7_witness :
    ((PrintStatus boundState (fun _ => busOkEnv) 1).2.1.filter isChannelLine).length = 8
    ∧ lineData ((channelLine boundState (fun _ => busOkEnv) 3).1) = some 42 := by
  have h := claim_C7_render boundState (fun _ => busOkEnv) 1 (by decide)
  refine ⟨h.2.1, ?_⟩
  have h3 := (h.2.2.2 3 (by decide)).1
  rw [h3]
  decide

/-- C9: sampling an in-range channel whose bound handle is invalid
performs no bus operation and no publish and returns `EINVAL`; for a
bound channel a publish occurs exactly when the bus read returns `EOK`,
and it carries the byte the read produced as a 16-bit unsigned value
(`VARTYPE_UINT16`, length 2). -/
theorem claim_C9_sample (st : ADS7830) (env : BusEnv) (setRes dataU : Nat) (ch : Int)
    (h0 : 0 ≤ ch) (h8 : ch < 8) :
    ((st.channels ch.toNat).hVar = VAR_INVALID →
        SampleChannel st env setRes dataU ch = (EINVAL, []))
    ∧ ((st.channels ch.toNat).hVar ≠ VAR_INVALID →
        ((ReadChannel st env ch dataU).1 = EOK →
            SampleChannel st env setRes dataU ch
              = (setRes,
                 (ReadChannel st env ch dataU).2.2.map Effect.bus
                   ++ [Effect.publish (st.channels ch.toNat).hVar
                        { type := VarType.uint16, len := 2,
                          val := (ReadChannel st env ch dataU).2.1 }]))
        ∧ ((ReadChannel st env ch dataU).1 ≠ EOK →
            SampleChannel st env setRes dataU ch
              = ((ReadChannel st env ch dataU).1,
                 (ReadChannel st env ch dataU).2.2.map Effect.bus))) := by
  have hrange : (0:Int) ≤ ch ∧ ch < 8 := ⟨h0, h8⟩
  refine ⟨fun hinv => ?_, fun hne => ⟨fun hok => ?_, fun hfail => ?_⟩⟩ <;>
    simp [SampleChannel, hrange, *]

/-- C9 witness: channel 3 of the bound state over a successful bus
publishes handle 10 with the 16-bit value 42. -/
theorem claim_C9_witness :
    SampleChannel boundState busOkEnv 0 0 3
      = (0, [Effect.bus (BusOp.openDev "/dev/i2c-1"), Effect.bus (BusOp.ioctlSlave 4 0x4b),
             Effect.bus (BusOp.writeCmd 4 (commandByte 3)), Effect.bus (BusOp.readData 4),
             Effect.bus (BusOp.closeDev 4),
             Effect.publish 10 { type := VarType.uint16, len := 2, val := 42 }]) := by
  have h := ((claim_C9_sample boundState busOkEnv 0 0 3 (by decide) (by decide)).2
    (by decide)).1 (by decide)
  rw [h]
  decide
